import Mathlib

/-!
Verification of the connection-management layer of the cr-sqlite websocket
server: the `ConnectionBroker` (per-client message dispatcher) and the
`PrimarySocket` (multiplexed request/response link to the primary instance).

The definitions are a shallow embedding of the two source files.  Stateful
event-handler code is modelled by explicit state passing: each JavaScript
event (inbound message, socket error/close, timer fire, local `close()`)
becomes a step on an explicit state record, and a thrown exception becomes
`Except.error`.  Observable effects that the source performs on external
collaborators (invoking the owned Sync Session's methods, invoking the
`onPrematurelyClosed` callback, settling a caller's promise, sending a ping)
are recorded in the state as logs/counters so that theorems can speak about
them.
-/

namespace ConnectionBroker

/-- The inbound message tags dispatched by `ConnectionBroker.#handleMessage`
(source: the `switch (tag)` over `tags.AnnouncePresence`, `tags.Changes`,
`tags.RejectChanges`, `tags.StartStreaming`). -/
inductive BMsg where
  | AnnouncePresence
  | Changes
  | RejectChanges
  | StartStreaming
deriving DecidableEq, Repr

/-- An invocation of a method of the owned Sync Session (the external
`SyncConnection` object): `start()`, `receiveChanges(msg)`,
`changesRejected(msg)`, `close()`. -/
inductive SCall where
  | start
  | receiveChanges
  | changesRejected
  | closeSession
deriving DecidableEq, Repr

/-- State of one `ConnectionBroker`.  `syncConnection` mirrors the
`#syncConnection : SyncConnection | null` field; `some k` records which
factory invocation (0-based) produced the owned session, so that
"the first session is not replaced" is expressible.  `sessionCreations`
counts invocations of the Session Factory (`createSyncConnection`);
`sessionCalls` logs every Sync Session method invocation; `brokerCloseCalls`
counts invocations of the broker's own `close()`. -/
structure CBState where
  syncConnection : Option Nat
  sessionCreations : Nat
  sessionCalls : List SCall
  brokerCloseCalls : Nat
deriving DecidableEq, Repr

/-- A freshly constructed broker: no session, nothing invoked yet. -/
def initCB : CBState :=
  { syncConnection := none
    sessionCreations := 0
    sessionCalls := []
    brokerCloseCalls := 0 }

/-- `ConnectionBroker.close()` — source: `this.#syncConnection?.close()`.
It closes the owned session when one exists; it does NOT clear the
`#syncConnection` reference and keeps no closed flag. -/
def closeB (s : CBState) : CBState :=
  { s with
    brokerCloseCalls := s.brokerCloseCalls + 1
    sessionCalls :=
      match s.syncConnection with
      | some _ => s.sessionCalls ++ [SCall.closeSession]
      | none => s.sessionCalls }

/-- `ConnectionBroker.#handleMessage(msg)` — dispatch by tag.
`Except.error` models a thrown exception.  For `Changes`/`RejectChanges`
the source reads `this.#syncConnection!`; when the field is `null` the
subsequent method call throws a `TypeError`, modelled as an error here.
For `AnnouncePresence` with a session already owned the source throws
before the Session Factory is invoked. -/
def handleMessage (s : CBState) : BMsg → Except String CBState
  | BMsg.AnnouncePresence =>
    match s.syncConnection with
    | some _ =>
      Except.error "A sync connection was already started for the given websocket"
    | none =>
      Except.ok
        { s with
          syncConnection := some s.sessionCreations
          sessionCreations := s.sessionCreations + 1
          sessionCalls := s.sessionCalls ++ [SCall.start] }
  | BMsg.Changes =>
    match s.syncConnection with
    | some _ => Except.ok { s with sessionCalls := s.sessionCalls ++ [SCall.receiveChanges] }
    | none => Except.error "TypeError: cannot call receiveChanges of null"
  | BMsg.RejectChanges =>
    match s.syncConnection with
    | some _ => Except.ok { s with sessionCalls := s.sessionCalls ++ [SCall.changesRejected] }
    | none => Except.error "TypeError: cannot call changesRejected of null"
  | BMsg.StartStreaming =>
    Except.error "Illegal state -- servers do not process the StartStreaming message"

/-- A raw inbound websocket frame: either it decodes to a message, or
`decode` throws (malformed bytes). -/
inductive Raw where
  | good (m : BMsg)
  | bad
deriving DecidableEq, Repr

/-- Result of running the `ws.on message` handler: the broker state
afterwards, and — when an exception escaped the handler (was not caught
inside it) — that exception. -/
structure HandlerResult where
  state : CBState
  escaped : Option String
deriving DecidableEq, Repr

/-- The `ws.on("message", ...)` handler — source:
`const msg = decode(...); try { await this.#handleMessage(msg) } catch (e)
{ console.error(e); this.close() }`.  Note that `decode` is evaluated
OUTSIDE the try/catch: a decode failure escapes the handler and `close()`
is not called.  An exception thrown by `#handleMessage` is caught, logged
and answered by `close()`. -/
def onWsMessage (s : CBState) : Raw → HandlerResult
  | Raw.bad => { state := s, escaped := some "decode failed" }
  | Raw.good m =>
    match handleMessage s m with
    | Except.ok s' => { state := s', escaped := none }
    | Except.error _ => { state := closeB s, escaped := none }

/-- Lifetime events of one connection: an inbound frame, or the
transport-level `close`/`error` events (both mapped to `close()` by the
constructor's registrations). -/
inductive BEvent where
  | message (r : Raw)
  | wsClose
  | wsError
deriving DecidableEq, Repr

/-- One lifetime event of the broker. -/
def stepB (s : CBState) : BEvent → CBState
  | BEvent.message r => (onWsMessage s r).state
  | BEvent.wsClose => closeB s
  | BEvent.wsError => closeB s

/-- A whole connection lifetime. -/
def runB (s : CBState) : List BEvent → CBState
  | [] => s
  | e :: es => runB (stepB s e) es

/-- Bookkeeping invariant tying the factory-invocation count to session
ownership: the broker has created a session iff it owns one. -/
def creationInv (s : CBState) : Prop :=
  s.sessionCreations = match s.syncConnection with | some _ => 1 | none => 0

end ConnectionBroker

namespace PrimarySocket

/-- Messages of the primary-link protocol that reach `#handleMessage`
(source tags: `Ping`, `Pong`, `CreateDbOnPrimaryResponse`,
`ApplyChangesOnPrimaryResponse`, `Err`).  Only the fields the dispatcher
reads are kept: the tag, the request id, and the error text. -/
inductive PMsg where
  | Ping
  | Pong
  | CreateDbOnPrimaryResponse (reqid : Int)
  | ApplyChangesOnPrimaryResponse (reqid : Int)
  | Err (reqid : Int) (err : String)
deriving DecidableEq, Repr

/-- The `_reqid` field of a message (`none` for `Ping`/`Pong`, which carry
no request id). -/
def msgReqid : PMsg → Option Int
  | PMsg.CreateDbOnPrimaryResponse r => some r
  | PMsg.ApplyChangesOnPrimaryResponse r => some r
  | PMsg.Err r _ => some r
  | _ => none

/-- How a caller's promise settles: with a message delivered to the
registered resolver (a success response, or an `Err` — the resolver
resolves or rejects accordingly), or with the socket-write error passed to
the `socket.write` callback. -/
inductive Outcome where
  | msg (m : PMsg)
  | writeErr
deriving DecidableEq, Repr

/-- State of one `PrimarySocket`.  The two pending tables keep only their
key lists (`Map` keys in insertion order); the resolver closures stored as
values behave uniformly and their invocations are recorded in the
`settledCreate`/`settledApply` logs as pairs of (table key, outcome).
`pingsSent` counts `Ping` writes, `prematureClosedCalls` counts
invocations of the owner-supplied `onPrematurelyClosed` callback. -/
structure PSState where
  createDbRequests : List Int
  applyChangesRequests : List Int
  lastPong : Int
  closed : Bool
  socketDestroyed : Bool
  timerActive : Bool
  pingsSent : Nat
  prematureClosedCalls : Nat
  settledCreate : List (Int × Outcome)
  settledApply : List (Int × Outcome)
deriving DecidableEq, Repr

/-- State after the constructor ran at time `now`: empty tables,
`#closed = false`, live socket, heartbeat interval armed,
`#lastPong = Date.now()`. -/
def initPS (now : Int) : PSState :=
  { createDbRequests := []
    applyChangesRequests := []
    lastPong := now
    closed := false
    socketDestroyed := false
    timerActive := true
    pingsSent := 0
    prematureClosedCalls := 0
    settledCreate := []
    settledApply := [] }

/-- `Map.set` on the key list: a fresh key is appended (insertion order);
setting an existing key replaces its value and keeps its position. -/
def setKey (k : Int) (t : List Int) : List Int :=
  if k ∈ t then t else t ++ [k]

/-- `PrimarySocket.sendCreateDb(msg)` — registers the resolver under
`msg._reqid` and writes the message.  `writeOk = false` models the
`socket.write` callback reporting an error, upon which the entry is
deleted again and the promise rejects with the write error. -/
def sendCreateDb (s : PSState) (reqid : Int) (writeOk : Bool) : PSState :=
  let s1 := { s with createDbRequests := setKey reqid s.createDbRequests }
  if writeOk then s1
  else
    { s1 with
      createDbRequests := s1.createDbRequests.erase reqid
      settledCreate := s1.settledCreate ++ [(reqid, Outcome.writeErr)] }

/-- `PrimarySocket.sendApplyChanges(msg)` — identical shape over the
apply-changes table. -/
def sendApplyChanges (s : PSState) (reqid : Int) (writeOk : Bool) : PSState :=
  let s1 := { s with applyChangesRequests := setKey reqid s.applyChangesRequests }
  if writeOk then s1
  else
    { s1 with
      applyChangesRequests := s1.applyChangesRequests.erase reqid
      settledApply := s1.settledApply ++ [(reqid, Outcome.writeErr)] }

/-- Invoking the resolver registered under key `k` in the create-db table
with message `m` — the closure body is
`this.#createDbRequests.delete(msg._reqid); if Err reject else resolve`:
it deletes the MESSAGE's request id (not necessarily `k`) and settles the
promise with `m`. -/
def invokeCreateResolver (s : PSState) (k : Int) (m : PMsg) : PSState :=
  { s with
    createDbRequests :=
      match msgReqid m with
      | some r => s.createDbRequests.erase r
      | none => s.createDbRequests
    settledCreate := s.settledCreate ++ [(k, Outcome.msg m)] }

/-- The resolver of the apply-changes table, same shape. -/
def invokeApplyResolver (s : PSState) (k : Int) (m : PMsg) : PSState :=
  { s with
    applyChangesRequests :=
      match msgReqid m with
      | some r => s.applyChangesRequests.erase r
      | none => s.applyChangesRequests
    settledApply := s.settledApply ++ [(k, Outcome.msg m)] }

/-- `PrimarySocket.#handleMessage(data)` — the demultiplexer on the `data`
event, dispatching on the decoded tag; `Except.error` models a thrown
`Error`.  `now` is `Date.now()` at handling time (read only by the `Pong`
arm). -/
def handleMessage (s : PSState) (now : Int) (m : PMsg) : Except String PSState :=
  match m with
  | PMsg.Pong => Except.ok { s with lastPong := now }
  | PMsg.CreateDbOnPrimaryResponse r =>
    if r ∈ s.createDbRequests then Except.ok (invokeCreateResolver s r m)
    else Except.error "Received a response for a request that does not exist"
  | PMsg.Err r _ =>
    if r ∈ s.createDbRequests then Except.ok (invokeCreateResolver s r m)
    else if r ∈ s.applyChangesRequests then Except.ok (invokeApplyResolver s r m)
    else Except.error "Received an error response for a request that does not exist"
  | PMsg.ApplyChangesOnPrimaryResponse r =>
    if r ∈ s.applyChangesRequests then Except.ok (invokeApplyResolver s r m)
    else Except.error "Received a response for a request that does not exist"
  | PMsg.Ping => Except.error "Unexpected message type"

/-- The `Err` every swept request is rejected with by `#rejectPending`:
request id is the sentinel `-1`. -/
def sweepErr : PMsg := PMsg.Err (-1) "Primary connection closed"

/-- The keys whose resolvers actually run when `#rejectPending` iterates a
table: each visited resolver executes `delete(msg._reqid)` = `delete(-1)`
on the table being iterated, and a JavaScript `Map` iterator skips an
entry deleted before it is visited.  So the first visit erases the key
`-1` from the remainder of the iteration (`Map` keys are unique, so later
deletes of `-1` find nothing). -/
def sweepIter : List Int → List Int
  | [] => []
  | k :: rest => k :: rest.erase (-1)

/-- `PrimarySocket.#rejectPending()` — iterate each table rejecting every
visited entry with `sweepErr`, then `clear()` both tables. -/
def rejectPending (s : PSState) : PSState :=
  { s with
    createDbRequests := []
    applyChangesRequests := []
    settledCreate :=
      s.settledCreate ++ (sweepIter s.createDbRequests).map (fun k => (k, Outcome.msg sweepErr))
    settledApply :=
      s.settledApply ++ (sweepIter s.applyChangesRequests).map (fun k => (k, Outcome.msg sweepErr)) }

/-- `PrimarySocket.#onError` — on a socket `error` event: if not locally
closed, reject all pending requests and invoke `onPrematurelyClosed`.
Note the handler does not set `#closed`, destroy the socket, or cancel the
heartbeat timer. -/
def onSocketError (s : PSState) : PSState :=
  if s.closed then s
  else { rejectPending s with prematureClosedCalls := s.prematureClosedCalls + 1 }

/-- `PrimarySocket.#onClose` — on a socket `close` event: identical body
(minus logging) to the error handler. -/
def onSocketClose (s : PSState) : PSState :=
  if s.closed then s
  else { rejectPending s with prematureClosedCalls := s.prematureClosedCalls + 1 }

/-- The heartbeat interval from `setInterval(this.#sendPing, 1000)`,
in milliseconds. -/
def pingIntervalMs : Int := 1000

/-- `PrimarySocket.#sendPing` — one firing of the heartbeat timer at time
`now`: if more than 5000 ms elapsed since the last `Pong`, destroy the
socket and cancel the timer; otherwise write a `Ping` (a write error is
only logged).  A fire with the timer already cancelled cannot happen and
is modelled as a no-op. -/
def sendPing (s : PSState) (now : Int) : PSState :=
  if s.timerActive = false then s
  else if 5000 < now - s.lastPong then
    { s with socketDestroyed := true, timerActive := false }
  else { s with pingsSent := s.pingsSent + 1 }

/-- `PrimarySocket.close()` — set the closed flag, destroy the socket,
cancel the heartbeat timer, reject everything pending. -/
def closePS (s : PSState) : PSState :=
  rejectPending { s with closed := true, socketDestroyed := true, timerActive := false }

/-- Lifetime events of one `PrimarySocket`: the public send methods (with
the outcome of the socket write), an inbound decoded message on the `data`
event, the socket `error`/`close` events, a heartbeat-timer fire, and a
local `close()` call. -/
inductive PEvent where
  | sendCreate (reqid : Int) (writeOk : Bool)
  | sendApply (reqid : Int) (writeOk : Bool)
  | recv (now : Int) (m : PMsg)
  | sockError
  | sockClose
  | tick (now : Int)
  | localClose
deriving DecidableEq, Repr

/-- One lifetime event; `Except.error` is an exception thrown out of the
`data` handler (fatal protocol error). -/
def stepPS (s : PSState) : PEvent → Except String PSState
  | PEvent.sendCreate r ok => Except.ok (sendCreateDb s r ok)
  | PEvent.sendApply r ok => Except.ok (sendApplyChanges s r ok)
  | PEvent.recv now m => handleMessage s now m
  | PEvent.sockError => Except.ok (onSocketError s)
  | PEvent.sockClose => Except.ok (onSocketClose s)
  | PEvent.tick now => Except.ok (sendPing s now)
  | PEvent.localClose => Except.ok (closePS s)

/-- A whole link lifetime; stops at the first fatal error. -/
def runPS (s : PSState) : List PEvent → Except String PSState
  | [] => Except.ok s
  | e :: es =>
    match stepPS s e with
    | Except.ok s' => runPS s' es
    | Except.error msg => Except.error msg

/-- Request ids currently registered in either pending table. -/
def pendingIds (s : PSState) : List Int :=
  s.createDbRequests ++ s.applyChangesRequests

/-- All promise settlements so far, create-db family first. -/
def allSettled (s : PSState) : List (Int × Outcome) :=
  s.settledCreate ++ s.settledApply

/-- The table keys whose promises have settled. -/
def settledIds (s : PSState) : List Int :=
  (allSettled s).map Prod.fst

/-- Every request id this link has ever tracked: still pending or already
settled. -/
def touched (s : PSState) : List Int :=
  pendingIds s ++ settledIds s

/-- The request ids of the send events of a trace, in order. -/
def sendIds : List PEvent → List Int
  | [] => []
  | PEvent.sendCreate r _ :: es => r :: sendIds es
  | PEvent.sendApply r _ :: es => r :: sendIds es
  | _ :: es => sendIds es

/-- The request ids borne by the inbound messages of a trace. -/
def recvIds : List PEvent → List Int
  | [] => []
  | PEvent.recv _ m :: es =>
    (match msgReqid m with | some r => [r] | none => []) ++ recvIds es
  | _ :: es => recvIds es

/-- A traffic event: a send whose socket write succeeds, or an inbound
message — no teardown (error/close/local close) and no timer fire. -/
def isTraffic : PEvent → Bool
  | PEvent.sendCreate _ ok => ok
  | PEvent.sendApply _ ok => ok
  | PEvent.recv _ _ => true
  | _ => false

/-- Correlation invariant of the multiplexer: no request id is tracked
twice (pending and settled ids are pairwise distinct overall), and every
settlement so far delivered a message bearing the request id of the entry
it settled. -/
def InvPS (s : PSState) : Prop :=
  (touched s).Nodup ∧
  ∀ p ∈ allSettled s, ∃ m, p.2 = Outcome.msg m ∧ msgReqid m = some p.1

end PrimarySocket


/-! ## Theorems about the Connection Broker -/

section BrokerTheorems
open ConnectionBroker

theorem creationInv_initCB : creationInv initCB := rfl

theorem creationInv_step (s : CBState) (e : BEvent) (h : creationInv s) :
    creationInv (stepB s e) := by
  cases e with
  | message r =>
    cases r with
    | bad => exact h
    | good m =>
      cases m <;>
        cases hs : s.syncConnection <;>
        simp_all [stepB, onWsMessage, handleMessage, creationInv, closeB]
  | wsClose => simpa [stepB, creationInv, closeB] using h
  | wsError => simpa [stepB, creationInv, closeB] using h

theorem creationInv_run (es : List BEvent) : ∀ s : CBState, creationInv s →
    creationInv (runB s es) := by
  induction es with
  | nil => exact fun s h => h
  | cons e es ih => exact fun s h => ih (stepB s e) (creationInv_step s e h)

/-- C6: at most one Sync Session is ever created over a broker's lifetime;
an `AnnouncePresence` arriving while a session is already owned fails with
a protocol-violation error before any Session Factory call, the connection
is closed, and the first session is not replaced.  (Proved in the spec's §5
scheduling model: each message handler runs to completion before the next
event is dispatched.) -/
theorem c6_single_session (k : Nat) (s : CBState) (es : List BEvent)
    (h : s.syncConnection = some k) :
    handleMessage s BMsg.AnnouncePresence =
      Except.error "A sync connection was already started for the given websocket" ∧
    (onWsMessage s (Raw.good BMsg.AnnouncePresence)).state.sessionCreations =
      s.sessionCreations ∧
    (onWsMessage s (Raw.good BMsg.AnnouncePresence)).state.syncConnection = some k ∧
    (onWsMessage s (Raw.good BMsg.AnnouncePresence)).state.brokerCloseCalls =
      s.brokerCloseCalls + 1 ∧
    (runB initCB es).sessionCreations ≤ 1 := by
  refine ⟨?_, ?_, ?_, ?_, ?_⟩
  · simp [handleMessage, h]
  · simp [onWsMessage, handleMessage, h, closeB]
  · simp [onWsMessage, handleMessage, h, closeB]
  · simp [onWsMessage, handleMessage, h, closeB]
  · have hinv := creationInv_run es initCB creationInv_initCB
    unfold creationInv at hinv
    cases hfin : (runB initCB es).syncConnection <;> simp [hfin] at hinv <;> omega

theorem c6_single_session_witness :
    (({ syncConnection := some 0, sessionCreations := 1, sessionCalls := [SCall.start],
        brokerCloseCalls := 0 } : CBState).syncConnection = some 0) ∧
    handleMessage
        { syncConnection := some 0, sessionCreations := 1, sessionCalls := [SCall.start],
          brokerCloseCalls := 0 } BMsg.AnnouncePresence =
      Except.error "A sync connection was already started for the given websocket" ∧
    (runB initCB [BEvent.message (Raw.good BMsg.AnnouncePresence),
                  BEvent.message (Raw.good BMsg.AnnouncePresence)]).sessionCreations ≤ 1 := by
  have h := c6_single_session 0
      { syncConnection := some 0, sessionCreations := 1, sessionCalls := [SCall.start],
        brokerCloseCalls := 0 }
      [BEvent.message (Raw.good BMsg.AnnouncePresence),
       BEvent.message (Raw.good BMsg.AnnouncePresence)] rfl
  exact ⟨rfl, h.1, h.2.2.2.2⟩

/-- C8: with no session yet owned, a `Changes` or `RejectChanges` message
always raises an error (the `syncConn!` null assertion makes the method
call throw), which the message handler answers by closing the connection;
no Sync Session method is ever invoked. -/
theorem c8_changes_before_announce (s : CBState) (h : s.syncConnection = none) :
    handleMessage s BMsg.Changes =
      Except.error "TypeError: cannot call receiveChanges of null" ∧
    handleMessage s BMsg.RejectChanges =
      Except.error "TypeError: cannot call changesRejected of null" ∧
    (onWsMessage s (Raw.good BMsg.Changes)).state.sessionCalls = s.sessionCalls ∧
    (onWsMessage s (Raw.good BMsg.Changes)).state.brokerCloseCalls = s.brokerCloseCalls + 1 ∧
    (onWsMessage s (Raw.good BMsg.Changes)).escaped = none ∧
    (onWsMessage s (Raw.good BMsg.RejectChanges)).state.sessionCalls = s.sessionCalls ∧
    (onWsMessage s (Raw.good BMsg.RejectChanges)).state.brokerCloseCalls =
      s.brokerCloseCalls + 1 ∧
    (onWsMessage s (Raw.good BMsg.RejectChanges)).state.sessionCreations =
      s.sessionCreations := by
  refine ⟨?_, ?_, ?_, ?_, ?_, ?_, ?_, ?_⟩ <;>
    simp [handleMessage, onWsMessage, closeB, h]

theorem c8_changes_before_announce_witness :
    (initCB.syncConnection = none) ∧
    handleMessage initCB BMsg.Changes =
      Except.error "TypeError: cannot call receiveChanges of null" ∧
    (onWsMessage initCB (Raw.good BMsg.Changes)).state.sessionCalls = initCB.sessionCalls := by
  have h := c8_changes_before_announce initCB rfl
  exact ⟨rfl, h.1, h.2.2.1⟩

/-- C4 counterexample: a broker that owns a session and on which `close()`
has been invoked still dispatches a subsequent `Changes` message to the
session: the message is not rejected (`escaped = none`, no error answered
by a further close) and the Sync Session method `receiveChanges` IS
invoked after `close()` — the claim that every message handled after
`close()` is rejected because no session exists, with no session method
invoked, is false. -/
theorem c4_counterexample :
    (onWsMessage
        (closeB { syncConnection := some 0, sessionCreations := 1,
                  sessionCalls := [SCall.start], brokerCloseCalls := 0 })
        (Raw.good BMsg.Changes)).escaped = none ∧
    (onWsMessage
        (closeB { syncConnection := some 0, sessionCreations := 1,
                  sessionCalls := [SCall.start], brokerCloseCalls := 0 })
        (Raw.good BMsg.Changes)).state.sessionCalls =
      [SCall.start, SCall.closeSession, SCall.receiveChanges] :=
  ⟨rfl, rfl⟩

/-- C4 (amended): `close()` closes the owned session but neither clears
the session reference nor marks the broker closed, so the closed state is
not absorbing: after `close()` on a broker owning a session, a further
`AnnouncePresence` is still rejected as a violation (a session exists),
while `Changes`/`RejectChanges` are dispatched to the closed session's
methods rather than rejected. -/
theorem c4_close_not_absorbing (k : Nat) (s : CBState) (h : s.syncConnection = some k) :
    (closeB s).syncConnection = some k ∧
    (closeB s).brokerCloseCalls = s.brokerCloseCalls + 1 ∧
    handleMessage (closeB s) BMsg.AnnouncePresence =
      Except.error "A sync connection was already started for the given websocket" ∧
    (onWsMessage (closeB s) (Raw.good BMsg.Changes)).escaped = none ∧
    (onWsMessage (closeB s) (Raw.good BMsg.Changes)).state.sessionCalls =
      s.sessionCalls ++ [SCall.closeSession, SCall.receiveChanges] ∧
    (onWsMessage (closeB s) (Raw.good BMsg.RejectChanges)).state.sessionCalls =
      s.sessionCalls ++ [SCall.closeSession, SCall.changesRejected] := by
  refine ⟨?_, ?_, ?_, ?_, ?_, ?_⟩ <;>
    simp [closeB, onWsMessage, handleMessage, h]

theorem c4_close_not_absorbing_witness :
    (({ syncConnection := some 0, sessionCreations := 1, sessionCalls := [SCall.start],
        brokerCloseCalls := 0 } : CBState).syncConnection = some 0) ∧
    (onWsMessage
        (closeB { syncConnection := some 0, sessionCreations := 1,
                  sessionCalls := [SCall.start], brokerCloseCalls := 0 })
        (Raw.good BMsg.Changes)).state.sessionCalls =
      [SCall.start] ++ [SCall.closeSession, SCall.receiveChanges] := by
  have h := c4_close_not_absorbing 0
      { syncConnection := some 0, sessionCreations := 1, sessionCalls := [SCall.start],
        brokerCloseCalls := 0 } rfl
  exact ⟨rfl, h.2.2.2.2.1⟩

/-- C5 counterexample: a decode failure does NOT terminate the connection
and DOES propagate past the message handler — `decode` is evaluated
outside the `try`/`catch`, so on malformed bytes the exception escapes
(`escaped = some _`) and the broker state is untouched: the owned session
is not closed and `close()` is not called. -/
theorem c5_counterexample :
    (onWsMessage
        { syncConnection := some 0, sessionCreations := 1, sessionCalls := [SCall.start],
          brokerCloseCalls := 0 } Raw.bad).escaped = some "decode failed" ∧
    (onWsMessage
        { syncConnection := some 0, sessionCreations := 1, sessionCalls := [SCall.start],
          brokerCloseCalls := 0 } Raw.bad).state =
      { syncConnection := some 0, sessionCreations := 1, sessionCalls := [SCall.start],
        brokerCloseCalls := 0 } :=
  ⟨rfl, rfl⟩

/-- C5 (amended): any exception thrown during dispatch of a decoded
message is caught at the connection boundary — it never escapes the
message handler, and the connection is terminated via `close()`.  A decode
failure, by contrast, happens outside the guarded region: the exception
escapes the handler and the connection is NOT closed (state unchanged). -/
theorem c5_dispatch_errors_contained (s : CBState) (m : BMsg) :
    (onWsMessage s (Raw.good m)).escaped = none ∧
    (∀ e, handleMessage s m = Except.error e →
      (onWsMessage s (Raw.good m)).state = closeB s) ∧
    (onWsMessage s Raw.bad).escaped = some "decode failed" ∧
    (onWsMessage s Raw.bad).state = s := by
  refine ⟨?_, ?_, rfl, rfl⟩
  · cases hm : handleMessage s m <;> simp [onWsMessage, hm]
  · intro e he; simp [onWsMessage, he]

theorem c5_dispatch_errors_contained_witness :
    (onWsMessage initCB (Raw.good BMsg.StartStreaming)).escaped = none ∧
    (onWsMessage initCB (Raw.good BMsg.StartStreaming)).state = closeB initCB := by
  have h := c5_dispatch_errors_contained initCB BMsg.StartStreaming
  exact ⟨h.1, h.2.1 _ rfl⟩

end BrokerTheorems

/-! ## Theorems about the Primary Link -/

section PrimaryTheorems
open PrimarySocket

theorem sweepIter_id (l : List Int) (h : (-1 : Int) ∉ l) : sweepIter l = l := by
  cases l with
  | nil => rfl
  | cons k rest =>
    have hk : (-1 : Int) ∉ rest := fun hm => h (List.mem_cons_of_mem _ hm)
    simp [sweepIter, List.erase_of_not_mem hk]

theorem closePS_idem (s : PSState) : closePS (closePS s) = closePS s := by
  cases s
  simp [closePS, rejectPending, sweepIter]

/-- C9: on each firing of the heartbeat timer at time `now`, if more than
five ping intervals (5 × 1000 ms) elapsed since the last observed `Pong`,
the link destroys the socket and cancels the heartbeat timer; otherwise it
sends a `Ping` and the timer stays armed. -/
theorem c9_heartbeat_timeout (s : PSState) (now : Int) (h : s.timerActive = true) :
    (5 * pingIntervalMs < now - s.lastPong →
      sendPing s now = { s with socketDestroyed := true, timerActive := false }) ∧
    (¬ 5 * pingIntervalMs < now - s.lastPong →
      sendPing s now = { s with pingsSent := s.pingsSent + 1 }) := by
  have h5 : (5 * pingIntervalMs : Int) = 5000 := by norm_num [pingIntervalMs]
  rw [h5]
  constructor
  · intro hdt; simp [sendPing, h, hdt]
  · intro hdt; simp [sendPing, h, hdt]

theorem c9_heartbeat_timeout_witness :
    ((initPS 0).timerActive = true) ∧
    sendPing (initPS 0) 5001 = { initPS 0 with socketDestroyed := true, timerActive := false } ∧
    sendPing (initPS 0) 4000 = { initPS 0 with pingsSent := (initPS 0).pingsSent + 1 } := by
  have ha := c9_heartbeat_timeout (initPS 0) 5001 rfl
  have hb := c9_heartbeat_timeout (initPS 0) 4000 rfl
  exact ⟨rfl, ha.1 (by norm_num [pingIntervalMs, initPS]),
    hb.2 (by norm_num [pingIntervalMs, initPS])⟩

/-- C10: the socket `error` and `close` handlers reject pending requests
and invoke the owner callback but change nothing else of the link state —
the closed flag stays `false`, the socket is not destroyed by the handler,
the heartbeat timer is not cancelled, and `#lastPong` is untouched; both
handlers act identically, and the still-armed ping timer later fires as
usual: below the 5000 ms pong timeout it keeps pinging, above it it
destroys the socket and cancels the timer on its own. -/
theorem c10_premature_close_frame (s : PSState) (h : s.closed = false) :
    (onSocketError s).closed = false ∧
    (onSocketError s).socketDestroyed = s.socketDestroyed ∧
    (onSocketError s).timerActive = s.timerActive ∧
    (onSocketError s).lastPong = s.lastPong ∧
    (onSocketError s).prematureClosedCalls = s.prematureClosedCalls + 1 ∧
    onSocketClose s = onSocketError s ∧
    (∀ now : Int, s.timerActive = true → ¬ 5000 < now - s.lastPong →
      (sendPing (onSocketError s) now).pingsSent = (onSocketError s).pingsSent + 1 ∧
      (sendPing (onSocketError s) now).timerActive = true) ∧
    (∀ now : Int, s.timerActive = true → 5000 < now - s.lastPong →
      (sendPing (onSocketError s) now).socketDestroyed = true ∧
      (sendPing (onSocketError s) now).timerActive = false) := by
  refine ⟨?_, ?_, ?_, ?_, ?_, ?_, ?_, ?_⟩
  · simp [onSocketError, rejectPending, h]
  · simp [onSocketError, rejectPending, h]
  · simp [onSocketError, rejectPending, h]
  · simp [onSocketError, rejectPending, h]
  · simp [onSocketError, rejectPending, h]
  · simp [onSocketError, onSocketClose]
  · intro now ht hdt
    constructor <;> simp [sendPing, onSocketError, rejectPending, h, ht, hdt]
  · intro now ht hdt
    constructor <;> simp [sendPing, onSocketError, rejectPending, h, ht, hdt]

theorem c10_premature_close_frame_witness :
    (({ initPS 0 with createDbRequests := [3] } : PSState).closed = false) ∧
    (onSocketError { initPS 0 with createDbRequests := [3] }).timerActive =
      ({ initPS 0 with createDbRequests := [3] } : PSState).timerActive ∧
    (sendPing (onSocketError { initPS 0 with createDbRequests := [3] }) 9000).socketDestroyed =
      true := by
  have h := c10_premature_close_frame { initPS 0 with createDbRequests := [3] } rfl
  exact ⟨rfl, h.2.2.1, (h.2.2.2.2.2.2.2 9000 rfl (by norm_num [initPS])).1⟩

/-- C2 (code defect, evaluated at the failing input): a `PrimarySocket`
with pending requests 3 and 4 whose socket emits an `error` event followed
by the `close` event the socket emits afterwards invokes the
`onPrematurelyClosed` callback TWICE — `#onError` and `#onClose` each see
`#closed = false` and neither records that the callback already fired —
while both pending requests are swept exactly once by the first handler. -/
theorem c2_error_then_close_invokes_callback_twice :
    (runPS { initPS 0 with createDbRequests := [3, 4] }
        [PEvent.sockError, PEvent.sockClose]).map
      (fun s => (s.prematureClosedCalls, s.settledCreate.map Prod.fst)) =
    Except.ok (2, [3, 4]) := rfl

/-- C3 counterexample: with pending create-db requests `[3, -1]` (K = 2),
`close()` rejects only request 3.  The resolver invoked for key 3 executes
`delete(msg._reqid)` = `delete(-1)` on the table being iterated, so the
`Map` iterator skips the not-yet-visited entry `-1`; it is then cleared
from the table without its promise ever settling, contradicting "rejects
all K pending requests". -/
theorem c3_counterexample :
    (closePS { initPS 0 with createDbRequests := [3, -1] }).settledCreate =
      [((3 : Int), Outcome.msg sweepErr)] ∧
    (closePS { initPS 0 with createDbRequests := [3, -1] }).createDbRequests = [] :=
  ⟨rfl, rfl⟩

/-- C3 (amended): provided no pending request id equals the sentinel `-1`,
closing the link — locally via `close()` or through the transport-failure
handler — rejects every pending request of both tables with the
connection-closed `Err` bearing sentinel id `-1`, leaves both tables
empty, and a second `close()` is a no-op (no further rejections, and
`close()` itself never invokes the owner callback).  A pending request
with id `-1` that is not first in its table would instead be dropped
unsettled. -/
theorem c3_teardown_sweep (s : PSState)
    (hc : (-1 : Int) ∉ s.createDbRequests)
    (ha : (-1 : Int) ∉ s.applyChangesRequests) :
    (closePS s).settledCreate =
      s.settledCreate ++ s.createDbRequests.map (fun k => (k, Outcome.msg sweepErr)) ∧
    (closePS s).settledApply =
      s.settledApply ++ s.applyChangesRequests.map (fun k => (k, Outcome.msg sweepErr)) ∧
    (closePS s).createDbRequests = [] ∧
    (closePS s).applyChangesRequests = [] ∧
    (closePS s).closed = true ∧
    (closePS s).socketDestroyed = true ∧
    (closePS s).timerActive = false ∧
    (closePS s).prematureClosedCalls = s.prematureClosedCalls ∧
    closePS (closePS s) = closePS s ∧
    (s.closed = false →
      (onSocketError s).settledCreate =
        s.settledCreate ++ s.createDbRequests.map (fun k => (k, Outcome.msg sweepErr)) ∧
      (onSocketError s).settledApply =
        s.settledApply ++ s.applyChangesRequests.map (fun k => (k, Outcome.msg sweepErr)) ∧
      (onSocketError s).createDbRequests = [] ∧
      (onSocketError s).applyChangesRequests = []) := by
  refine ⟨?_, ?_, ?_, ?_, ?_, ?_, ?_, ?_, closePS_idem s, ?_⟩
  · simp [closePS, rejectPending, sweepIter_id _ hc]
  · simp [closePS, rejectPending, sweepIter_id _ ha]
  · simp [closePS, rejectPending]
  · simp [closePS, rejectPending]
  · simp [closePS, rejectPending]
  · simp [closePS, rejectPending]
  · simp [closePS, rejectPending]
  · simp [closePS, rejectPending]
  · intro hcl
    refine ⟨?_, ?_, ?_, ?_⟩ <;>
      simp [onSocketError, rejectPending, hcl, sweepIter_id _ hc, sweepIter_id _ ha]

theorem c3_teardown_sweep_witness :
    ((-1 : Int) ∉ [(3 : Int), 4]) ∧
    (closePS { initPS 0 with createDbRequests := [3, 4], applyChangesRequests := [7] }).settledCreate =
      [((3 : Int), Outcome.msg sweepErr), ((4 : Int), Outcome.msg sweepErr)] ∧
    (closePS { initPS 0 with createDbRequests := [3, 4], applyChangesRequests := [7] }).settledApply =
      [((7 : Int), Outcome.msg sweepErr)] ∧
    closePS (closePS { initPS 0 with createDbRequests := [3, 4], applyChangesRequests := [7] }) =
      closePS { initPS 0 with createDbRequests := [3, 4], applyChangesRequests := [7] } := by
  have h := c3_teardown_sweep
      { initPS 0 with createDbRequests := [3, 4], applyChangesRequests := [7] }
      (by decide) (by decide)
  exact ⟨by decide, h.1, h.2.1, h.2.2.2.2.2.2.2.2.1⟩

/-- C7: an inbound `Err` is routed by looking its request id up first in
the create-db table and then in the apply-changes table; the first
matching entry is rejected with the `Err` and removed from its table (the
other table untouched); if neither table holds the id, a fatal protocol
error is thrown — and a success response whose id is absent from its own
table likewise throws. -/
theorem c7_err_routing (s : PSState) (r : Int) (e : String) (now : Int) :
    (r ∈ s.createDbRequests →
      ∃ s', handleMessage s now (PMsg.Err r e) = Except.ok s' ∧
        s'.createDbRequests = s.createDbRequests.erase r ∧
        s'.settledCreate = s.settledCreate ++ [(r, Outcome.msg (PMsg.Err r e))] ∧
        s'.applyChangesRequests = s.applyChangesRequests ∧
        s'.settledApply = s.settledApply) ∧
    (r ∉ s.createDbRequests → r ∈ s.applyChangesRequests →
      ∃ s', handleMessage s now (PMsg.Err r e) = Except.ok s' ∧
        s'.applyChangesRequests = s.applyChangesRequests.erase r ∧
        s'.settledApply = s.settledApply ++ [(r, Outcome.msg (PMsg.Err r e))] ∧
        s'.createDbRequests = s.createDbRequests ∧
        s'.settledCreate = s.settledCreate) ∧
    (r ∉ s.createDbRequests → r ∉ s.applyChangesRequests →
      handleMessage s now (PMsg.Err r e) =
        Except.error "Received an error response for a request that does not exist") ∧
    (r ∉ s.createDbRequests →
      handleMessage s now (PMsg.CreateDbOnPrimaryResponse r) =
        Except.error "Received a response for a request that does not exist") ∧
    (r ∉ s.applyChangesRequests →
      handleMessage s now (PMsg.ApplyChangesOnPrimaryResponse r) =
        Except.error "Received a response for a request that does not exist") := by
  refine ⟨?_, ?_, ?_, ?_, ?_⟩
  · intro hin
    exact ⟨invokeCreateResolver s r (PMsg.Err r e),
      by simp [handleMessage, hin], by simp [invokeCreateResolver, msgReqid],
      by simp [invokeCreateResolver, msgReqid], rfl, rfl⟩
  · intro hout hin
    exact ⟨invokeApplyResolver s r (PMsg.Err r e),
      by simp [handleMessage, hout, hin], by simp [invokeApplyResolver, msgReqid],
      by simp [invokeApplyResolver, msgReqid], rfl, rfl⟩
  · intro hout1 hout2; simp [handleMessage, hout1, hout2]
  · intro hout; simp [handleMessage, hout]
  · intro hout; simp [handleMessage, hout]

theorem c7_err_routing_witness :
    ((5 : Int) ∈ [(5 : Int)]) ∧
    (∃ s', handleMessage { initPS 0 with createDbRequests := [5], applyChangesRequests := [5, 9] } 0 (PMsg.Err 5 "boom") = Except.ok s' ∧
        s'.createDbRequests = [] ∧
        s'.settledCreate = [((5 : Int), Outcome.msg (PMsg.Err 5 "boom"))] ∧
        s'.applyChangesRequests = [5, 9]) ∧
    handleMessage { initPS 0 with createDbRequests := [5], applyChangesRequests := [5, 9] }
        0 (PMsg.Err 11 "boom") =
      Except.error "Received an error response for a request that does not exist" ∧
    handleMessage { initPS 0 with createDbRequests := [5], applyChangesRequests := [5, 9] }
        0 (PMsg.CreateDbOnPrimaryResponse 9) =
      Except.error "Received a response for a request that does not exist" := by
  have h := c7_err_routing
      { initPS 0 with createDbRequests := [5], applyChangesRequests := [5, 9] } 5 "boom" 0
  have h11 := c7_err_routing
      { initPS 0 with createDbRequests := [5], applyChangesRequests := [5, 9] } 11 "boom" 0
  have h9 := c7_err_routing
      { initPS 0 with createDbRequests := [5], applyChangesRequests := [5, 9] } 9 "boom" 0
  obtain ⟨s', hok, hc, hsc, hac, -⟩ := h.1 (by decide)
  refine ⟨by decide, ⟨s', hok, ?_, ?_, ?_⟩,
    h11.2.2.1 (by decide) (by decide), h9.2.2.2.1 (by decide)⟩
  · simpa using hc
  · simpa using hsc
  · simpa using hac

end PrimaryTheorems

/-! ## Request correlation over arbitrary traffic traces (C1) -/

section CorrelationTheorems
open PrimarySocket
open List

theorem perm_settle_left (r : Int) (t u v w : List Int) (h : r ∈ t) :
    (t.erase r ++ u) ++ ((v ++ [r]) ++ w) ~ (t ++ u) ++ (v ++ w) := by
  have h1 : (v ++ [r]) ++ w = v ++ r :: w := by simp
  have h2 : (t.erase r ++ u) ++ (v ++ r :: w) ~ (t.erase r ++ u) ++ (r :: (v ++ w)) :=
    List.Perm.append_left _ List.perm_middle
  have h3 : (t.erase r ++ u) ++ (r :: (v ++ w)) ~ r :: ((t.erase r ++ u) ++ (v ++ w)) :=
    List.perm_middle
  have h4 : t ++ u ~ r :: (t.erase r ++ u) := (List.perm_cons_erase h).append_right u
  have h5 : (t ++ u) ++ (v ++ w) ~ r :: ((t.erase r ++ u) ++ (v ++ w)) :=
    h4.append_right (v ++ w)
  rw [h1]
  exact (h2.trans h3).trans h5.symm

theorem perm_settle_right (r : Int) (t u v w : List Int) (h : r ∈ t) :
    (u ++ t.erase r) ++ (v ++ (w ++ [r])) ~ (u ++ t) ++ (v ++ w) := by
  have h1 : v ++ (w ++ [r]) ~ r :: (v ++ w) := by
    have he : v ++ (w ++ [r]) = (v ++ w) ++ [r] := by rw [List.append_assoc]
    rw [he]
    exact List.perm_append_singleton r (v ++ w)
  have h2 : (u ++ t.erase r) ++ (v ++ (w ++ [r])) ~ (u ++ t.erase r) ++ (r :: (v ++ w)) :=
    List.Perm.append_left _ h1
  have h3 : (u ++ t.erase r) ++ (r :: (v ++ w)) ~ r :: ((u ++ t.erase r) ++ (v ++ w)) :=
    List.perm_middle
  have h4 : u ++ t ~ r :: (u ++ t.erase r) :=
    (List.Perm.append_left u (List.perm_cons_erase h)).trans List.perm_middle
  have h5 : (u ++ t) ++ (v ++ w) ~ r :: ((u ++ t.erase r) ++ (v ++ w)) :=
    h4.append_right (v ++ w)
  exact (h2.trans h3).trans h5.symm

theorem perm_snoc_left (r : Int) (t u v : List Int) :
    ((t ++ [r]) ++ u) ++ v ~ r :: ((t ++ u) ++ v) := by
  have h1 : (t ++ [r]) ++ u = t ++ r :: u := by simp
  rw [h1]
  exact List.Perm.append_right v List.perm_middle

theorem perm_snoc_mid (r : Int) (t u v : List Int) :
    (t ++ (u ++ [r])) ++ v ~ r :: ((t ++ u) ++ v) := by
  have h1 : t ++ (u ++ [r]) = (t ++ u) ++ [r] := by rw [List.append_assoc]
  rw [h1]
  exact (List.perm_append_singleton r (t ++ u)).append_right v

theorem invokeCreateResolver_spec (s : PSState) (r : Int) (m : PMsg)
    (hmem : r ∈ s.createDbRequests) (hreq : msgReqid m = some r) :
    touched (invokeCreateResolver s r m) ~ touched s ∧
    (∀ p ∈ allSettled (invokeCreateResolver s r m),
      p ∈ allSettled s ∨ p = (r, Outcome.msg m)) ∧
    (∀ p ∈ allSettled s, p ∈ allSettled (invokeCreateResolver s r m)) ∧
    r ∈ settledIds (invokeCreateResolver s r m) := by
  refine ⟨?_, ?_, ?_, ?_⟩
  · simp only [touched, pendingIds, settledIds, allSettled, invokeCreateResolver, hreq,
      List.map_append, List.map_cons, List.map_nil]
    exact perm_settle_left r _ _ _ _ hmem
  · intro p hp
    simp only [allSettled, invokeCreateResolver] at hp
    rcases List.mem_append.1 hp with hp1 | hp2
    · rcases List.mem_append.1 hp1 with hp3 | hp4
      · exact Or.inl (List.mem_append_left _ hp3)
      · exact Or.inr (by simpa using hp4)
    · exact Or.inl (List.mem_append_right _ hp2)
  · intro p hp
    simp only [allSettled] at hp
    simp only [allSettled, invokeCreateResolver]
    rcases List.mem_append.1 hp with hp1 | hp2
    · exact List.mem_append_left _ (List.mem_append_left _ hp1)
    · exact List.mem_append_right _ hp2
  · simp only [settledIds, allSettled, invokeCreateResolver]
    refine List.mem_map.2 ⟨(r, Outcome.msg m), ?_, rfl⟩
    simp

theorem invokeApplyResolver_spec (s : PSState) (r : Int) (m : PMsg)
    (hmem : r ∈ s.applyChangesRequests) (hreq : msgReqid m = some r) :
    touched (invokeApplyResolver s r m) ~ touched s ∧
    (∀ p ∈ allSettled (invokeApplyResolver s r m),
      p ∈ allSettled s ∨ p = (r, Outcome.msg m)) ∧
    (∀ p ∈ allSettled s, p ∈ allSettled (invokeApplyResolver s r m)) ∧
    r ∈ settledIds (invokeApplyResolver s r m) := by
  refine ⟨?_, ?_, ?_, ?_⟩
  · simp only [touched, pendingIds, settledIds, allSettled, invokeApplyResolver, hreq,
      List.map_append, List.map_cons, List.map_nil]
    exact perm_settle_right r _ _ _ _ hmem
  · intro p hp
    simp only [allSettled, invokeApplyResolver] at hp
    rcases List.mem_append.1 hp with hp1 | hp2
    · exact Or.inl (List.mem_append_left _ hp1)
    · rcases List.mem_append.1 hp2 with hp3 | hp4
      · exact Or.inl (List.mem_append_right _ hp3)
      · exact Or.inr (by simpa using hp4)
  · intro p hp
    simp only [allSettled] at hp
    simp only [allSettled, invokeApplyResolver]
    rcases List.mem_append.1 hp with hp1 | hp2
    · exact List.mem_append_left _ hp1
    · exact List.mem_append_right _ (List.mem_append_left _ hp2)
  · simp only [settledIds, allSettled, invokeApplyResolver]
    refine List.mem_map.2 ⟨(r, Outcome.msg m), ?_, rfl⟩
    simp

theorem settledIds_mono {a b : PSState}
    (h : ∀ p ∈ allSettled a, p ∈ allSettled b) :
    ∀ r ∈ settledIds a, r ∈ settledIds b := by
  intro r hr
  rcases List.mem_map.1 hr with ⟨p, hp, hfst⟩
  exact List.mem_map.2 ⟨p, h p hp, hfst⟩

theorem sendIds_cons (e : PEvent) (es : List PEvent) :
    sendIds (e :: es) = sendIds [e] ++ sendIds es := by
  cases e <;> simp [sendIds]

theorem recvIds_cons (e : PEvent) (es : List PEvent) :
    recvIds (e :: es) = recvIds [e] ++ recvIds es := by
  cases e <;> simp [recvIds]

theorem stepPS_traffic (s s1 : PSState) (e : PEvent)
    (htr : isTraffic e = true)
    (hfresh : ∀ r ∈ sendIds [e], r ∉ touched s)
    (hok : stepPS s e = Except.ok s1) :
    touched s1 ~ sendIds [e] ++ touched s ∧
    (∀ p ∈ allSettled s1, p ∈ allSettled s ∨
      ∃ m, p.2 = Outcome.msg m ∧ msgReqid m = some p.1) ∧
    (∀ p ∈ allSettled s, p ∈ allSettled s1) ∧
    (∀ now m r, e = PEvent.recv now m → msgReqid m = some r → r ∈ settledIds s1) := by
  cases e with
  | sendCreate r ok =>
    cases ok with
    | false => exact absurd htr (by simp [isTraffic])
    | true =>
      have hr : r ∉ s.createDbRequests := fun hin =>
        hfresh r (by simp [sendIds]) (List.mem_append_left _ (List.mem_append_left _ hin))
      simp only [stepPS, Except.ok.injEq] at hok
      subst hok
      have hs : sendCreateDb s r true =
          { s with createDbRequests := s.createDbRequests ++ [r] } := by
        simp [sendCreateDb, setKey, hr]
      rw [hs]
      refine ⟨perm_snoc_left r _ _ _, fun p hp => Or.inl hp, fun p hp => hp,
        fun now m r' h _ => nomatch h⟩
  | sendApply r ok =>
    cases ok with
    | false => exact absurd htr (by simp [isTraffic])
    | true =>
      have hr : r ∉ s.applyChangesRequests := fun hin =>
        hfresh r (by simp [sendIds]) (List.mem_append_left _ (List.mem_append_right _ hin))
      simp only [stepPS, Except.ok.injEq] at hok
      subst hok
      have hs : sendApplyChanges s r true =
          { s with applyChangesRequests := s.applyChangesRequests ++ [r] } := by
        simp [sendApplyChanges, setKey, hr]
      rw [hs]
      refine ⟨perm_snoc_mid r _ _ _, fun p hp => Or.inl hp, fun p hp => hp,
        fun now m r' h _ => nomatch h⟩
  | recv now m =>
    cases m with
    | Ping => exact nomatch hok
    | Pong =>
      simp only [stepPS, handleMessage, Except.ok.injEq] at hok
      subst hok
      refine ⟨List.Perm.refl _, fun p hp => Or.inl hp, fun p hp => hp, ?_⟩
      intro now' m' r h hm
      injection h with h1 h2
      subst h2
      exact nomatch hm
    | CreateDbOnPrimaryResponse r =>
      simp only [stepPS, handleMessage] at hok
      by_cases hmem : r ∈ s.createDbRequests
      · rw [if_pos hmem] at hok
        simp only [Except.ok.injEq] at hok
        subst hok
        obtain ⟨hp1, hp2, hp3, hp4⟩ :=
          invokeCreateResolver_spec s r (PMsg.CreateDbOnPrimaryResponse r) hmem rfl
        refine ⟨hp1, ?_, hp3, ?_⟩
        · intro p hp
          rcases hp2 p hp with h | h
          · exact Or.inl h
          · subst h
            exact Or.inr ⟨_, rfl, rfl⟩
        · intro now' m' r' h hm
          injection h with h1 h2
          subst h2
          simp only [msgReqid, Option.some.injEq] at hm
          subst hm
          exact hp4
      · rw [if_neg hmem] at hok
        exact nomatch hok
    | ApplyChangesOnPrimaryResponse r =>
      simp only [stepPS, handleMessage] at hok
      by_cases hmem : r ∈ s.applyChangesRequests
      · rw [if_pos hmem] at hok
        simp only [Except.ok.injEq] at hok
        subst hok
        obtain ⟨hp1, hp2, hp3, hp4⟩ :=
          invokeApplyResolver_spec s r (PMsg.ApplyChangesOnPrimaryResponse r) hmem rfl
        refine ⟨hp1, ?_, hp3, ?_⟩
        · intro p hp
          rcases hp2 p hp with h | h
          · exact Or.inl h
          · subst h
            exact Or.inr ⟨_, rfl, rfl⟩
        · intro now' m' r' h hm
          injection h with h1 h2
          subst h2
          simp only [msgReqid, Option.some.injEq] at hm
          subst hm
          exact hp4
      · rw [if_neg hmem] at hok
        exact nomatch hok
    | Err r er =>
      simp only [stepPS, handleMessage] at hok
      by_cases hmem : r ∈ s.createDbRequests
      · rw [if_pos hmem] at hok
        simp only [Except.ok.injEq] at hok
        subst hok
        obtain ⟨hp1, hp2, hp3, hp4⟩ :=
          invokeCreateResolver_spec s r (PMsg.Err r er) hmem rfl
        refine ⟨hp1, ?_, hp3, ?_⟩
        · intro p hp
          rcases hp2 p hp with h | h
          · exact Or.inl h
          · subst h
            exact Or.inr ⟨_, rfl, rfl⟩
        · intro now' m' r' h hm
          injection h with h1 h2
          subst h2
          simp only [msgReqid, Option.some.injEq] at hm
          subst hm
          exact hp4
      · rw [if_neg hmem] at hok
        by_cases hmem2 : r ∈ s.applyChangesRequests
        · rw [if_pos hmem2] at hok
          simp only [Except.ok.injEq] at hok
          subst hok
          obtain ⟨hp1, hp2, hp3, hp4⟩ :=
            invokeApplyResolver_spec s r (PMsg.Err r er) hmem2 rfl
          refine ⟨hp1, ?_, hp3, ?_⟩
          · intro p hp
            rcases hp2 p hp with h | h
            · exact Or.inl h
            · subst h
              exact Or.inr ⟨_, rfl, rfl⟩
          · intro now' m' r' h hm
            injection h with h1 h2
            subst h2
            simp only [msgReqid, Option.some.injEq] at hm
            subst hm
            exact hp4
        · rw [if_neg hmem2] at hok
          exact nomatch hok
  | sockError => exact absurd htr (by simp [isTraffic])
  | sockClose => exact absurd htr (by simp [isTraffic])
  | tick now => exact absurd htr (by simp [isTraffic])
  | localClose => exact absurd htr (by simp [isTraffic])

theorem runPS_traffic (es : List PEvent) : ∀ s s' : PSState,
    (∀ p ∈ allSettled s, ∃ m, p.2 = Outcome.msg m ∧ msgReqid m = some p.1) →
    (∀ e ∈ es, isTraffic e = true) →
    (sendIds es ++ touched s).Nodup →
    runPS s es = Except.ok s' →
    touched s' ~ sendIds es ++ touched s ∧
    (∀ p ∈ allSettled s', ∃ m, p.2 = Outcome.msg m ∧ msgReqid m = some p.1) ∧
    (∀ p ∈ allSettled s, p ∈ allSettled s') ∧
    (∀ r ∈ recvIds es, r ∈ settledIds s') := by
  induction es with
  | nil =>
    intro s s' hmat _ _ hok
    simp only [runPS, Except.ok.injEq] at hok
    subst hok
    exact ⟨List.Perm.refl _, hmat, fun p hp => hp, by simp [recvIds]⟩
  | cons e es ih =>
    intro s s' hmat htr hnd hok
    simp only [runPS] at hok
    cases hstep : stepPS s e with
    | error msg =>
      rw [hstep] at hok
      exact nomatch hok
    | ok s1 =>
      rw [hstep] at hok
      rw [sendIds_cons, List.append_assoc] at hnd
      have hfresh : ∀ r ∈ sendIds [e], r ∉ touched s := by
        intro r hr hmemt
        have hd := List.disjoint_of_nodup_append hnd
        exact hd hr (List.mem_append_right _ hmemt)
      obtain ⟨hperm1, hmat1, hmono1, hrecv1⟩ :=
        stepPS_traffic s s1 e (htr e (List.mem_cons_self e es)) hfresh hstep
      have hmatS1 : ∀ p ∈ allSettled s1, ∃ m, p.2 = Outcome.msg m ∧ msgReqid m = some p.1 := by
        intro p hp
        rcases hmat1 p hp with h | h
        · exact hmat p h
        · exact h
      have hpermA : sendIds es ++ touched s1 ~ sendIds [e] ++ (sendIds es ++ touched s) :=
        (List.Perm.append_left (sendIds es) hperm1).trans
          (List.perm_append_comm_assoc (sendIds es) (sendIds [e]) (touched s))
      have hnd1 : (sendIds es ++ touched s1).Nodup := hpermA.symm.nodup hnd
      obtain ⟨hperm2, hmat2, hmono2, hrecv2⟩ := ih s1 s' hmatS1 (fun e' he' =>
        htr e' (List.mem_cons_of_mem _ he')) hnd1 hok
      refine ⟨?_, hmat2, fun p hp => hmono2 _ (hmono1 _ hp), ?_⟩
      · rw [sendIds_cons, List.append_assoc]
        exact hperm2.trans hpermA
      · intro r hr
        rw [recvIds_cons] at hr
        rcases List.mem_append.1 hr with hr1 | hr2
        · cases e with
          | recv now m =>
            have hm : msgReqid m = some r := by
              cases hmm : msgReqid m with
              | none => simp [recvIds, hmm] at hr1
              | some r2 =>
                simp [recvIds, hmm] at hr1
                rw [hr1]
            exact settledIds_mono hmono2 r (hrecv1 now m r rfl hm)
          | sendCreate r2 ok => simp [recvIds] at hr1
          | sendApply r2 ok => simp [recvIds] at hr1
          | sockError => simp [recvIds] at hr1
          | sockClose => simp [recvIds] at hr1
          | tick now => simp [recvIds] at hr1
          | localClose => simp [recvIds] at hr1
        · exact hrecv2 r hr2

/-- C1: for any trace of concurrently issued `sendCreateDb` /
`sendApplyChanges` calls with pairwise-distinct request ids whose socket
writes succeed, interleaved with inbound responses in ANY arrival order
(no teardown events), if the link processes the whole trace without a
fatal protocol error then: a request id borne by some inbound
response/`Err` settles exactly once; every settlement delivers to its
promise the response or `Err` message bearing that promise's own request
id; no id settles twice overall; and a settled id has been removed from
the pending tables (and belongs to the ids actually sent). -/
theorem c1_request_correlation (es : List PEvent) (s' : PSState) (r : Int)
    (hdist : (sendIds es).Nodup)
    (htraffic : ∀ e ∈ es, isTraffic e = true)
    (hok : runPS (initPS 0) es = Except.ok s')
    (hrecv : r ∈ recvIds es) :
    (settledIds s').count r = 1 ∧
    (settledIds s').Nodup ∧
    (∀ p ∈ allSettled s', ∃ m, p.2 = Outcome.msg m ∧ msgReqid m = some p.1) ∧
    (∀ k ∈ settledIds s', k ∉ pendingIds s' ∧ k ∈ sendIds es) := by
  have hnd : (sendIds es ++ touched (initPS 0)).Nodup := by
    simpa [touched, pendingIds, settledIds, allSettled, initPS] using hdist
  obtain ⟨hperm, hmat, -, hrecvS⟩ := runPS_traffic es (initPS 0) s'
    (by simp [allSettled, initPS]) htraffic hnd hok
  have hperm' : touched s' ~ sendIds es := by
    have he : sendIds es ++ touched (initPS 0) = sendIds es := by
      simp [touched, pendingIds, settledIds, allSettled, initPS]
    rwa [he] at hperm
  have hndT : (pendingIds s' ++ settledIds s').Nodup :=
    List.Perm.nodup hperm'.symm hdist
  obtain ⟨hndP, hndS, hdisj⟩ := List.nodup_append.1 hndT
  refine ⟨List.count_eq_one_of_mem hndS (hrecvS r hrecv), hndS, hmat, ?_⟩
  intro k hk
  refine ⟨fun hp => hdisj hp hk, ?_⟩
  exact (hperm'.mem_iff).1 (List.mem_append_right _ hk)

theorem c1_request_correlation_witness :
    (sendIds [PEvent.sendCreate 7 true, PEvent.sendApply 8 true, PEvent.recv 0 (PMsg.Err 7 "disk full"), PEvent.recv 0 (PMsg.ApplyChangesOnPrimaryResponse 8)]).Nodup ∧
    (settledIds { createDbRequests := [], applyChangesRequests := [], lastPong := 0, closed := false, socketDestroyed := false, timerActive := true, pingsSent := 0, prematureClosedCalls := 0, settledCreate := [((7 : Int), Outcome.msg (PMsg.Err 7 "disk full"))], settledApply := [((8 : Int), Outcome.msg (PMsg.ApplyChangesOnPrimaryResponse 8))] }).count 7 = 1 ∧
    (7 : Int) ∉ pendingIds { createDbRequests := [], applyChangesRequests := [], lastPong := 0, closed := false, socketDestroyed := false, timerActive := true, pingsSent := 0, prematureClosedCalls := 0, settledCreate := [((7 : Int), Outcome.msg (PMsg.Err 7 "disk full"))], settledApply := [((8 : Int), Outcome.msg (PMsg.ApplyChangesOnPrimaryResponse 8))] } ∧
    (7 : Int) ∈ sendIds [PEvent.sendCreate 7 true, PEvent.sendApply 8 true, PEvent.recv 0 (PMsg.Err 7 "disk full"), PEvent.recv 0 (PMsg.ApplyChangesOnPrimaryResponse 8)] := by
  have h := c1_request_correlation
    [PEvent.sendCreate 7 true, PEvent.sendApply 8 true, PEvent.recv 0 (PMsg.Err 7 "disk full"), PEvent.recv 0 (PMsg.ApplyChangesOnPrimaryResponse 8)]
    { createDbRequests := [], applyChangesRequests := [], lastPong := 0, closed := false, socketDestroyed := false, timerActive := true, pingsSent := 0, prematureClosedCalls := 0, settledCreate := [((7 : Int), Outcome.msg (PMsg.Err 7 "disk full"))], settledApply := [((8 : Int), Outcome.msg (PMsg.ApplyChangesOnPrimaryResponse 8))] }
    7 (by decide) (by decide) rfl (by decide)
  obtain ⟨hk1, hk2⟩ := h.2.2.2 7 (by decide)
  exact ⟨by decide, h.1, hk1, hk2⟩

end CorrelationTheorems
